import Mathlib

/-!
Formal model of the mock banking microservices repository
(orchestrator `orquestador` plus the four keyword-matching responder
services `micro_consultas`, `micro_cuentas`, `micro_ia`,
`micro_identidad`), shallowly embedded from the Python sources in
`mock_agent_ai/`.  Strings are Lean `String`s, the Python substring
operator `in` is the function `contiene`, `str.lower()` is `lowerStr`,
and the `unicodedata` NFD-plus-strip-marks normalization of
`micro_cuentas._normalize` is `quitaTilde` composed with `lowerStr`.
-/

/-- Predicate `esPrefijo pat l` is true when the character list `pat` occurs at the
head of `l` (the auxiliary step of Python substring search). -/
def esPrefijo : List Char → List Char → Bool
  | [], _ => true
  | _ :: _, [] => false
  | p :: ps, t :: ts => (p == t) && esPrefijo ps ts

/-- Predicate `hayOcurrencia pat l` is true when `pat` occurs contiguously anywhere
inside `l`; this is the semantics of Python's `pat in texto`. -/
def hayOcurrencia (pat : List Char) : List Char → Bool
  | [] => esPrefijo pat []
  | t :: ts => esPrefijo pat (t :: ts) || hayOcurrencia pat ts

/-- Python's substring test `pal in texto`. -/
def contiene (texto pal : String) : Bool :=
  hayOcurrencia pal.data texto.data

/-- The lowercase map used by Python's `str.lower()`, restricted to the
characters that occur in this repository's questions and keyword lists
(ASCII letters and the Spanish accented letters).  Characters outside
this table are left unchanged; in particular no character is ever mapped
to an uppercase letter, exactly as with the real `str.lower()`. -/
def minusculas : List (Char × Char) :=
  [('A', 'a'), ('B', 'b'), ('C', 'c'), ('D', 'd'), ('E', 'e'), ('F', 'f'),
   ('G', 'g'), ('H', 'h'), ('I', 'i'), ('J', 'j'), ('K', 'k'), ('L', 'l'),
   ('M', 'm'), ('N', 'n'), ('O', 'o'), ('P', 'p'), ('Q', 'q'), ('R', 'r'),
   ('S', 's'), ('T', 't'), ('U', 'u'), ('V', 'v'), ('W', 'w'), ('X', 'x'),
   ('Y', 'y'), ('Z', 'z'),
   ('Á', 'á'), ('É', 'é'), ('Í', 'í'), ('Ó', 'ó'), ('Ú', 'ú'), ('Ü', 'ü'),
   ('Ñ', 'ñ')]

/-- Per-character model of Python's `str.lower()` (see `minusculas`). -/
def pyLower (c : Char) : Char :=
  match minusculas.find? (fun p => p.1 == c) with
  | some p => p.2
  | none => c

/-- Python's `texto.lower()`. -/
def lowerStr (s : String) : String :=
  String.mk (s.data.map pyLower)

/-- The accent-stripping table backing `quitaTilde`. -/
def marcas : List (Char × Char) :=
  [('á', 'a'), ('é', 'e'), ('í', 'i'), ('ó', 'o'), ('ú', 'u'), ('ü', 'u'),
   ('ñ', 'n')]

/-- Per-character model of `unicodedata.normalize("NFD", ·)` followed by
dropping the combining marks (category `Mn`), for the lowercase Spanish
characters this acts on: each precomposed accented letter decomposes into
its base letter plus a combining mark, and the mark is dropped.  Note
that `ñ` decomposes to `n` plus a combining tilde, so it becomes `n`. -/
def quitaTilde (c : Char) : Char :=
  match marcas.find? (fun p => p.1 == c) with
  | some p => p.2
  | none => c

namespace micro_consultas

/-- The if/elif chain of `micro_consultas.main.responder`, applied to the
already-lowercased text. -/
def respuestaDe (texto : String) : String :=
  if ["movimiento", "compra", "comprado", "últimamente"].any
      (fun p => contiene texto p) then
    "Tu último movimiento fue una compra de 35€ en Amazon."
  else if contiene texto "saldo" then
    "Tu saldo actual es de 1.275,45€."
  else if contiene texto "extracto" then
    "Tu extracto de abril incluye 18 movimientos por un total de 1.052€."
  else if ["recibo", "luz", "agua", "internet"].any
      (fun p => contiene texto p) then
    "Tu último recibo de internet fue de 44,90€ y se cargó el día 3 de este mes."
  else if contiene texto "iban" then
    "Tu IBAN es ES6600190020961234567890."
  else if ["cajero", "oficina", "localizar"].any (fun p => contiene texto p) then
    "Puedes encontrar la oficina o cajero más cercano en nuestra app, sección \x27Dónde estamos\x27."
  else if ["ingreso", "entrada de dinero"].any (fun p => contiene texto p) then
    "Recibiste un ingreso de 1.200€ el pasado 27 de abril."
  else if ["límite", "tarjeta"].any (fun p => contiene texto p) then
    "El límite de tu tarjeta actual es de 2.000€ mensuales."
  else if ["divisa", "cambio"].any (fun p => contiene texto p) then
    "El tipo de cambio actual EUR/USD es 1,09."
  else if ["último acceso", "seguridad"].any (fun p => contiene texto p) then
    "Tu último acceso fue el 2 de mayo a las 17:42 desde la app móvil."
  else
    "No tengo información suficiente para responder a tu consulta específica."

/-- Handler `micro_consultas.main.responder`: lowercase the question, then match. -/
def responder (pregunta : String) : String :=
  respuestaDe (lowerStr pregunta)

/-- The default fallback of `micro_consultas`. -/
def defecto : String :=
  "No tengo información suficiente para responder a tu consulta específica."

end micro_consultas

namespace micro_cuentas

/-- Helper `micro_cuentas.main._normalize`: lowercase, NFD-decompose and drop the
combining marks (see `pyLower` and `quitaTilde`). -/
def _normalize (s : String) : String :=
  String.mk ((s.data.map pyLower).map quitaTilde)

/-- The if/elif chain of `micro_cuentas.main.responder`, applied to the
normalized text.  Branch 1 is translated exactly as written in the
source: it tests the literal `"IBAN"` (uppercase) against the normalized
text. -/
def respuestaDe (texto : String) : String :=
  if contiene texto "IBAN" && contiene texto "cuenta" then
    "Tu cuenta ha sido abierta correctamente con IBAN ES6600190020961234567890."
  else if contiene texto "tipo de cuenta" || contiene texto "tipos de cuenta" then
    "Ofrecemos cuentas corrientes, cuentas nómina y cuentas de ahorro sin comisiones de mantenimiento."
  else if contiene texto "requisito" || contiene texto "requisitos"
      || contiene texto "condicion" || contiene texto "condiciones" then
    "Para abrir una cuenta necesitas ser mayor de edad, presentar DNI y un justificante de domicilio."
  else if contiene texto "comision" || contiene texto "comisiones" then
    "Las cuentas estándar no tienen comisiones."
  else if (contiene texto "cambiar" && contiene texto "cuenta")
      || (contiene texto "convertir" && contiene texto "cuenta") then
    "Podemos ayudarte a convertir tu cuenta actual en una cuenta nómina si cumples las condiciones."
  else if contiene texto "plazo" || contiene texto "apertura" then
    "El proceso de apertura es inmediato si se hace online. En oficina puede tardar 24-48h."
  else
    "No he encontrado información sobre eso. ¿Quieres saber cómo abrir una cuenta o los requisitos?"

/-- Handler `micro_cuentas.main.responder`: normalize the question, then match. -/
def responder (pregunta : String) : String :=
  respuestaDe (_normalize pregunta)

/-- The default fallback of `micro_cuentas`. -/
def defecto : String :=
  "No he encontrado información sobre eso. ¿Quieres saber cómo abrir una cuenta o los requisitos?"

/-- The literal keyword strings occurring in the branch conditions of
`micro_cuentas.main.responder`. -/
def claves : List String :=
  ["IBAN", "cuenta", "tipo de cuenta", "tipos de cuenta",
   "requisito", "requisitos", "condicion", "condiciones",
   "comision", "comisiones", "cambiar", "convertir", "plazo", "apertura"]

end micro_cuentas

namespace micro_ia

/-- The simulated knowledge base `RESPUESTAS_IA` of `micro_ia.main`, in
dict insertion order (Python dicts iterate in insertion order). -/
def RESPUESTAS_IA : List (String × String) :=
  [("hipoteca", "Actualmente el tipo de interés para hipotecas es del 3,2%."),
   ("tarjeta", "Puedes solicitar una tarjeta desde la app o acudiendo a una oficina."),
   ("transferencia", "Una transferencia nacional tarda aproximadamente 24h hábiles."),
   ("comisión", "La comisión de mantenimiento es de 10€ trimestrales, pero puede eliminarse cumpliendo ciertos requisitos."),
   ("oficina", "Nuestro horario de atención en oficinas es de lunes a viernes de 8:30 a 14:00."),
   ("certificado", "Puedes descargar tu certificado de titularidad bancaria desde la app o el área de cliente web."),
   ("préstamo", "Ofrecemos préstamos personales desde un 5,5% TIN con aprobación rápida online."),
   ("inversión", "Contamos con planes de inversión adaptados a tu perfil de riesgo, consulta con tu asesor.")]

/-- The `for clave, respuesta in RESPUESTAS_IA.items()` loop of
`micro_ia.main.responder`, applied to the lowercased text: return the
first entry whose keyword occurs in the text, else the generic default. -/
def respuestaDe (texto : String) : String :=
  match RESPUESTAS_IA.find? (fun kv => contiene texto kv.1) with
  | some kv => kv.2
  | none => "Lo siento, no tengo información sobre eso en este momento."

/-- Handler `micro_ia.main.responder`: lowercase the question, then match. -/
def responder (pregunta : String) : String :=
  respuestaDe (lowerStr pregunta)

/-- The default fallback of `micro_ia`. -/
def defecto : String :=
  "Lo siento, no tengo información sobre eso en este momento."

end micro_ia

namespace micro_identidad

/-- The if/elif chain of `micro_identidad.main.responder`, applied to
the lowercased text. -/
def respuestaDe (texto : String) : String :=
  if contiene texto "dni" || contiene texto "nie" then
    "Tu documento ha sido validado correctamente. Coincide con nuestros registros."
  else if contiene texto "sms" || contiene texto "código" || contiene texto "llamada" then
    "Código verificado correctamente. Tu sesión es segura."
  else if contiene texto "correo" || contiene texto "email" then
    "Tu correo ha sido confirmado. Ya puedes continuar con tu operación."
  else if contiene texto "dos factores" || contiene texto "2fa" then
    "Autenticación en dos pasos completada correctamente."
  else if contiene texto "verificar identidad" || contiene texto "identidad" then
    "Identidad verificada con éxito para el usuario Juan Pérez."
  else
    "No se ha podido determinar el tipo de verificación. Por favor, especifica el método (DNI, SMS, correo...)."

/-- Handler `micro_identidad.main.responder`: lowercase the question, then match. -/
def responder (pregunta : String) : String :=
  respuestaDe (lowerStr pregunta)

/-- The default fallback of `micro_identidad`. -/
def defecto : String :=
  "No se ha podido determinar el tipo de verificación. Por favor, especifica el método (DNI, SMS, correo...)."

end micro_identidad

namespace orquestador

/-- Orchestrator keyword group routed to `MICROS[0]` (micro_consultas). -/
def grupo_consultas : List String :=
  ["movimiento", "saldo", "extracto", "recibo", "luz", "agua", "internet",
   "iban", "cajero", "oficina", "ingreso", "tarjeta", "límite",
   "divisa", "cambio", "seguridad", "acceso", "comprado", "compra", "últimamente"]

/-- Orchestrator keyword group routed to `MICROS[1]` (micro_cuentas). -/
def grupo_cuentas : List String :=
  ["abrir cuenta", "cuenta nueva", "tipo de cuenta", "tipos de cuenta",
   "requisito", "documentación", "comisión", "cambiar cuenta",
   "convertir cuenta", "plazo", "tiempo"]

/-- Orchestrator keyword group routed to `MICROS[2]` (micro_identidad). -/
def grupo_identidad : List String :=
  ["dni", "nie", "sms", "código", "correo", "email", "2fa",
   "verificar identidad", "autenticación", "doble factor", "identidad"]

/-- The if/elif URL-selection chain of
`orquestador.main.procesar_consulta`, applied to the lowercased text:
the index into `MICROS` (0 = consultas, 1 = cuentas, 2 = identidad,
3 = ia). -/
def routeIdx (texto : String) : Nat :=
  if grupo_consultas.any (fun palabra => contiene texto palabra) then 0
  else if grupo_cuentas.any (fun palabra => contiene texto palabra) then 1
  else if grupo_identidad.any (fun palabra => contiene texto palabra) then 2
  else 3

/-- Outcome of the proxied `client.post` to the selected microservice:
either the call raises a transport exception, or it yields a response
with a status code and a JSON-object body (modelled as a key/value
list; the downstream services always answer with JSON objects). -/
inductive RespuestaMicro where
  | excepcion : RespuestaMicro
  | respuesta (status : Nat) (cuerpo : List (String × String)) : RespuestaMicro

/-- httpx's `response.raise_for_status()` raises unless the status code
is a 2xx success. -/
def es_exito (status : Nat) : Bool :=
  200 ≤ status && status < 300

/-- Python's `dict.get(clave, valorPorDefecto)` on the parsed JSON body. -/
def jsonGet (cuerpo : List (String × String)) (clave valorPorDefecto : String) : String :=
  match cuerpo.find? (fun kv => kv.1 == clave) with
  | some kv => kv.2
  | none => valorPorDefecto

/-- What one call of `orquestador.main.procesar_consulta` does: which
`MICROS` index it selected, which question payload it forwarded, and
the HTTP outcome (`.ok` body value or `.error` status code). -/
structure ResultadoOrq where
  indice : Nat
  pregunta_enviada : String
  salida : Except Nat String

/-- Handler `orquestador.main.procesar_consulta`, with the downstream call's
behaviour passed in as `descendente`: lowercase the question, select the
`MICROS` index, forward `texto`, map a raised exception or a non-2xx
status (via `raise_for_status`) to HTTP 502, and otherwise answer with
`response.json().get("respuesta", "Sin respuesta")`. -/
def procesar_consulta (descendente : RespuestaMicro) (pregunta : String) :
    ResultadoOrq :=
  let texto := lowerStr pregunta
  let indice := routeIdx texto
  match descendente with
  | .excepcion => ⟨indice, texto, .error 502⟩
  | .respuesta st cuerpo =>
      if es_exito st then
        ⟨indice, texto, .ok (jsonGet cuerpo "respuesta" "Sin respuesta")⟩
      else
        ⟨indice, texto, .error 502⟩

end orquestador

namespace middleware

/-- The static token shared by all five FastAPI apps. -/
def VALID_TOKEN : String := "secreto123"

/-- The allow-list of the `validar_token` middleware (identical in all
five apps). -/
def rutas_publicas : List String := ["/token", "/docs", "/openapi.json"]

/-- Python's `path.startswith(r)`. -/
def comienzaCon (path r : String) : Bool :=
  esPrefijo r.data path.data

/-- Python's `any(request.url.path.startswith(r) for r in rutas_publicas)`. -/
def es_ruta_publica (path : String) : Bool :=
  rutas_publicas.any (fun r => comienzaCon path r)

/-- The `validar_token` middleware body (identical in all five apps):
`true` means the request is passed on to `call_next`, `false` means
`HTTPException(401)` is raised.  `auth` is the `Authorization` header,
`none` when absent; Python's `not auth` is also true for the empty
string, hence the extra `a == ""` disjunct. -/
def validar_token (path : String) (auth : Option String) : Bool :=
  if es_ruta_publica path then true
  else
    match auth with
    | none => false
    | some a => !(a == "" || a != "Bearer " ++ VALID_TOKEN)

/-- One request against a service whose handler is `handler`: the
middleware either raises 401 or forwards the request, in which case the
handler computes the response. -/
def atender (handler : String → String) (path : String)
    (auth : Option String) (pregunta : String) : Except Nat String :=
  if validar_token path auth then .ok (handler pregunta) else .error 401

end middleware

/-! ## First-match tables

The three services whose branches are disjunctions of single-keyword
substring tests (`micro_consultas`, `micro_ia`, `micro_identidad`) are
each equivalent to a first-match lookup in an ordered table of
(keyword list, response) rows; the lemmas below establish this and the
generic behaviour of such lookups. -/

/-- First row whose keyword list has a member occurring in `texto`. -/
def firstMatch (texto : String) : List (List String × String) → Option String
  | [] => none
  | (claves, r) :: resto =>
      if claves.any (fun p => contiene texto p) then some r
      else firstMatch texto resto

/-- Row `i` of a table (out-of-range rows read as the empty row). -/
def filaDe (t : List (List String × String)) (i : Nat) : List String × String :=
  t.getD i ([], "")

theorem firstMatch_en (texto : String) :
    ∀ (t : List (List String × String)) (i : Nat), i < t.length →
      (filaDe t i).1.any (fun k => contiene texto k) = true →
      (∀ j, j < i → (filaDe t j).1.any (fun k => contiene texto k) = false) →
      firstMatch texto t = some (filaDe t i).2 := by
  intro t
  induction t with
  | nil => intro i hi; exact absurd hi (Nat.not_lt_zero i)
  | cons fila resto ih =>
      intro i hi hfire hprev
      cases i with
      | zero =>
          have : (filaDe (fila :: resto) 0) = fila := rfl
          rw [this] at hfire ⊢
          obtain ⟨ks, r⟩ := fila
          simp only [firstMatch, hfire, if_true]
      | succ i =>
          have h0 : fila.1.any (fun k => contiene texto k) = false :=
            hprev 0 (Nat.succ_pos i)
          have hshift : filaDe (fila :: resto) (i + 1) = filaDe resto i := rfl
          rw [hshift] at hfire ⊢
          obtain ⟨ks, r⟩ := fila
          simp only [firstMatch, h0 , if_false, Bool.false_eq_true]
          exact ih i (Nat.lt_of_succ_lt_succ hi) hfire
            (fun j hj => hprev (j + 1) (Nat.succ_lt_succ hj))

theorem firstMatch_none_iff (texto : String) :
    ∀ t : List (List String × String),
      (firstMatch texto t = none ↔
        ∀ fila ∈ t, fila.1.any (fun k => contiene texto k) = false) := by
  intro t
  induction t with
  | nil => simp [firstMatch]
  | cons fila resto ih =>
      obtain ⟨ks, r⟩ := fila
      rw [List.forall_mem_cons]
      cases h : ks.any (fun k => contiene texto k) with
      | false =>
          simp only [firstMatch, h, Bool.false_eq_true, if_false]
          rw [ih]
          exact ⟨fun htail => ⟨trivial, htail⟩, fun hall => hall.2⟩
      | true =>
          simp only [firstMatch, h, if_true]
          constructor
          · intro hsome; exact Option.noConfusion hsome
          · intro hall; exact absurd hall.1 (by simp)

theorem firstMatch_mem (texto : String) :
    ∀ (t : List (List String × String)) (r : String),
      firstMatch texto t = some r → r ∈ t.map Prod.snd := by
  intro t
  induction t with
  | nil => intro r h; exact absurd h (by simp [firstMatch])
  | cons fila resto ih =>
      intro r h
      obtain ⟨ks, s⟩ := fila
      by_cases hk : ks.any (fun p => contiene texto p) = true
      · simp only [firstMatch, hk, if_true, Option.some.injEq] at h
        simp [h.symm]
      · simp only [firstMatch, hk, if_false] at h
        simp [ih r h]

theorem firstMatch_unaClave (texto : String) :
    ∀ l : List (String × String),
      firstMatch texto (l.map (fun kv => ([kv.1], kv.2))) =
        (l.find? (fun kv => contiene texto kv.1)).map Prod.snd := by
  intro l
  induction l with
  | nil => rfl
  | cons kv resto ih =>
      cases h : contiene texto kv.1 with
      | false => simp [firstMatch, List.find?, h, ih]
      | true => simp [firstMatch, List.find?, h]

/-- The ordered branch table of `micro_consultas.main.responder`. -/
def tabla_consultas : List (List String × String) :=
  [(["movimiento", "compra", "comprado", "últimamente"],
    "Tu último movimiento fue una compra de 35€ en Amazon."),
   (["saldo"], "Tu saldo actual es de 1.275,45€."),
   (["extracto"], "Tu extracto de abril incluye 18 movimientos por un total de 1.052€."),
   (["recibo", "luz", "agua", "internet"],
    "Tu último recibo de internet fue de 44,90€ y se cargó el día 3 de este mes."),
   (["iban"], "Tu IBAN es ES6600190020961234567890."),
   (["cajero", "oficina", "localizar"],
    "Puedes encontrar la oficina o cajero más cercano en nuestra app, sección \x27Dónde estamos\x27."),
   (["ingreso", "entrada de dinero"], "Recibiste un ingreso de 1.200€ el pasado 27 de abril."),
   (["límite", "tarjeta"], "El límite de tu tarjeta actual es de 2.000€ mensuales."),
   (["divisa", "cambio"], "El tipo de cambio actual EUR/USD es 1,09."),
   (["último acceso", "seguridad"],
    "Tu último acceso fue el 2 de mayo a las 17:42 desde la app móvil.")]

/-- The ordered branch table of `micro_identidad.main.responder`. -/
def tabla_identidad : List (List String × String) :=
  [(["dni", "nie"],
    "Tu documento ha sido validado correctamente. Coincide con nuestros registros."),
   (["sms", "código", "llamada"], "Código verificado correctamente. Tu sesión es segura."),
   (["correo", "email"], "Tu correo ha sido confirmado. Ya puedes continuar con tu operación."),
   (["dos factores", "2fa"], "Autenticación en dos pasos completada correctamente."),
   (["verificar identidad", "identidad"],
    "Identidad verificada con éxito para el usuario Juan Pérez.")]

/-- The branch table of `micro_ia.main.responder`: one single-keyword row
per entry of `RESPUESTAS_IA`, in dict order. -/
def tabla_ia : List (List String × String) :=
  micro_ia.RESPUESTAS_IA.map (fun kv => ([kv.1], kv.2))

theorem consultas_es_tabla (t : String) :
    micro_consultas.respuestaDe t =
      (firstMatch t tabla_consultas).getD micro_consultas.defecto := by
  simp only [micro_consultas.respuestaDe, micro_consultas.defecto, tabla_consultas,
    firstMatch, List.any_cons, List.any_nil, Bool.or_false, Bool.or_assoc,
    apply_ite (fun o => Option.getD o
      "No tengo información suficiente para responder a tu consulta específica."),
    Option.getD_some, Option.getD_none]

theorem identidad_es_tabla (t : String) :
    micro_identidad.respuestaDe t =
      (firstMatch t tabla_identidad).getD micro_identidad.defecto := by
  simp only [micro_identidad.respuestaDe, micro_identidad.defecto, tabla_identidad,
    firstMatch, List.any_cons, List.any_nil, Bool.or_false, Bool.or_assoc,
    apply_ite (fun o => Option.getD o
      "No se ha podido determinar el tipo de verificación. Por favor, especifica el método (DNI, SMS, correo...)."),
    Option.getD_some, Option.getD_none]

theorem ia_es_tabla (t : String) :
    micro_ia.respuestaDe t = (firstMatch t tabla_ia).getD micro_ia.defecto := by
  rw [tabla_ia, firstMatch_unaClave]
  cases h : micro_ia.RESPUESTAS_IA.find? (fun kv => contiene t kv.1) with
  | none => simp [micro_ia.respuestaDe, micro_ia.defecto, h]
  | some kv => simp [micro_ia.respuestaDe, h]

/-- In `minusculas`, no produced (lowercase) value is itself a key: the
lowercase map is idempotent on its finite table. -/
theorem minusculas_valores_fijos :
    ∀ p ∈ minusculas, minusculas.find? (fun q => q.1 == p.2) = none := by
  decide

theorem pyLower_idem (c : Char) : pyLower (pyLower c) = pyLower c := by
  cases h : minusculas.find? (fun p => p.1 == c) with
  | none =>
      have hc : pyLower c = c := by unfold pyLower; rw [h]
      rw [hc, hc]
  | some p =>
      have hp : pyLower c = p.2 := by unfold pyLower; rw [h]
      have hmem : p ∈ minusculas := List.mem_of_find?_eq_some h
      have hnone : minusculas.find? (fun q => q.1 == p.2) = none :=
        minusculas_valores_fijos p hmem
      rw [hp]; unfold pyLower; rw [hnone]

theorem map_pyLower_idem (l : List Char) :
    (l.map pyLower).map pyLower = l.map pyLower := by
  induction l with
  | nil => rfl
  | cons c cs ih => simp [List.map_cons, ih, pyLower_idem]

theorem lowerStr_idem (s : String) : lowerStr (lowerStr s) = lowerStr s := by
  show String.mk ((s.data.map pyLower).map pyLower) = String.mk (s.data.map pyLower)
  rw [map_pyLower_idem]

theorem normalize_lowerStr (s : String) :
    micro_cuentas._normalize (lowerStr s) = micro_cuentas._normalize s := by
  show String.mk (((s.data.map pyLower).map pyLower).map quitaTilde) =
    String.mk ((s.data.map pyLower).map quitaTilde)
  rw [map_pyLower_idem]

/-! ## Claims -/

theorem norm_char_distinto_I (c : Char) : quitaTilde (pyLower c) ≠ 'I' := by
  have hval : ∀ p ∈ minusculas, p.2 ≠ 'I' := by decide
  have hmar : ∀ p ∈ marcas, p.2 ≠ 'I' := by decide
  have base : ∀ d : Char, d ≠ 'I' → quitaTilde d ≠ 'I' := by
    intro d hd
    unfold quitaTilde
    cases h2 : marcas.find? (fun p => p.1 == d) with
    | none => exact hd
    | some m => exact hmar m (List.mem_of_find?_eq_some h2)
  cases h1 : minusculas.find? (fun p => p.1 == c) with
  | some p =>
      have hp : pyLower c = p.2 := by unfold pyLower; rw [h1]
      rw [hp]
      exact base p.2 (hval p (List.mem_of_find?_eq_some h1))
  | none =>
      have hc : pyLower c = c := by unfold pyLower; rw [h1]
      rw [hc]
      refine base c ?_
      intro hceq
      rw [hceq] at h1
      exact absurd h1 (by decide)

theorem hayOcurrencia_IBAN_falso (l : List Char) :
    hayOcurrencia ['I', 'B', 'A', 'N'] ((l.map pyLower).map quitaTilde) = false := by
  induction l with
  | nil => rfl
  | cons c cs ih =>
      have hne : ('I' == quitaTilde (pyLower c)) = false :=
        beq_eq_false_iff_ne.mpr (Ne.symm (norm_char_distinto_I c))
      simp only [List.map_cons, hayOcurrencia, esPrefijo, hne, Bool.false_and,
        Bool.false_or]
      exact ih

theorem contiene_IBAN_norm (s : String) :
    contiene (micro_cuentas._normalize s) "IBAN" = false := by
  show hayOcurrencia "IBAN".data ((s.data.map pyLower).map quitaTilde) = false
  rw [show "IBAN".data = ['I', 'B', 'A', 'N'] from rfl]
  exact hayOcurrencia_IBAN_falso s.data

/-- C1: the claim (and the service's own docstring, comment and unit
test) says a normalized question containing both "abrir" and "cuenta"
gets the account-opening IBAN response.  The code instead tests the
literal `"IBAN"` against the normalized (lowercased) text, which can
never succeed; the unit test's own input "Quiero abrir cuenta" therefore
falls through to the default fallback.  This theorem records the dead
branch (no normalized text ever contains `"IBAN"`) and evaluates the
handler at the failing input. -/
theorem claim_C1 :
    (∀ s : String, contiene (micro_cuentas._normalize s) "IBAN" = false)
    ∧ micro_cuentas.responder "Quiero abrir cuenta" = micro_cuentas.defecto
    ∧ contiene (micro_cuentas._normalize "Quiero abrir cuenta") "abrir" = true
    ∧ contiene (micro_cuentas._normalize "Quiero abrir cuenta") "cuenta" = true :=
  ⟨contiene_IBAN_norm, by rfl, by rfl, by rfl⟩

theorem validar_token_spec (path : String) (auth : Option String)
    (h : middleware.es_ruta_publica path = false) :
    (middleware.validar_token path auth = true ↔
      auth = some ("Bearer " ++ middleware.VALID_TOKEN)) := by
  unfold middleware.validar_token
  rw [h]
  cases auth with
  | none => simp
  | some a =>
      simp only [Bool.if_false_left, Option.some.injEq, Bool.not_eq_true',
        Bool.or_eq_false_iff, beq_eq_false_iff_ne, bne_eq_false_iff_eq,
        Bool.false_eq_true, if_false]
      constructor
      · exact fun hh => hh.2
      · intro hh; subst hh; exact ⟨by decide, rfl⟩

/-- C3: on a non-public path, the middleware passes the request to the
handler exactly when the Authorization header is present and equals
"Bearer secreto123", and raises 401 exactly otherwise. -/
theorem claim_C3 (handler : String → String) (path : String)
    (auth : Option String) (pregunta : String)
    (h : middleware.es_ruta_publica path = false) :
    (middleware.atender handler path auth pregunta = .ok (handler pregunta) ↔
      auth = some ("Bearer " ++ middleware.VALID_TOKEN))
    ∧ (middleware.atender handler path auth pregunta = .error 401 ↔
      auth ≠ some ("Bearer " ++ middleware.VALID_TOKEN)) := by
  have hv := validar_token_spec path auth h
  unfold middleware.atender
  cases hb : middleware.validar_token path auth with
  | true =>
      rw [hb] at hv
      have hauth : auth = some ("Bearer " ++ middleware.VALID_TOKEN) := hv.mp rfl
      simp [hauth]
  | false =>
      rw [hb] at hv
      have hauth : auth ≠ some ("Bearer " ++ middleware.VALID_TOKEN) := by
        intro he
        exact Bool.false_ne_true (hv.mpr he)
      simp [hauth]

theorem claim_C3_witness :
    middleware.atender micro_consultas.responder "/respuesta"
      (some "Bearer secreto124") "saldo" = .error 401 :=
  (claim_C3 micro_consultas.responder "/respuesta" (some "Bearer secreto124")
    "saldo" (by decide)).2.mpr (by decide)

/-- C9: the middleware allow-list is tested with `str.startswith`, so
every path that merely starts with "/token", "/docs" or "/openapi.json"
bypasses the token check: the request reaches the handler no matter what
the Authorization header holds. -/
theorem claim_C9 (handler : String → String) (path : String)
    (auth auth' : Option String) (pregunta : String)
    (h : (middleware.comienzaCon path "/token" || middleware.comienzaCon path "/docs"
          || middleware.comienzaCon path "/openapi.json") = true) :
    middleware.atender handler path auth pregunta = .ok (handler pregunta)
    ∧ middleware.atender handler path auth pregunta =
        middleware.atender handler path auth' pregunta := by
  have hp : middleware.es_ruta_publica path = true := by
    simp only [middleware.es_ruta_publica, middleware.rutas_publicas,
      List.any_cons, List.any_nil, Bool.or_false]
    simpa [Bool.or_assoc] using h
  constructor
  · simp [middleware.atender, middleware.validar_token, hp]
  · simp [middleware.atender, middleware.validar_token, hp]

theorem claim_C9_witness :
    middleware.atender micro_cuentas.responder "/tokens" none "hola" =
      .ok (micro_cuentas.responder "hola") :=
  (claim_C9 micro_cuentas.responder "/tokens" none (some "Bearer secreto123")
    "hola" (by decide)).1

/-- C4: the orchestrator's /consulta answers 502 exactly when the
downstream call raises or `raise_for_status` fires on a non-2xx status,
and 502 is the only error status the handler itself produces. -/
theorem claim_C4 (d : orquestador.RespuestaMicro) (q : String) :
    ((orquestador.procesar_consulta d q).salida = .error 502 ↔
      (d = .excepcion ∨
        ∃ st cuerpo, d = .respuesta st cuerpo ∧ orquestador.es_exito st = false))
    ∧ ∀ e, (orquestador.procesar_consulta d q).salida = .error e → e = 502 := by
  cases d with
  | excepcion =>
      refine ⟨⟨fun _ => Or.inl rfl, fun _ => rfl⟩, ?_⟩
      intro e he
      exact (Except.error.inj he).symm
  | respuesta st cuerpo =>
      cases h : orquestador.es_exito st with
      | true =>
          constructor
          · constructor
            · intro hc
              exact absurd hc (by simp [orquestador.procesar_consulta, h])
            · rintro (hc | ⟨st', c', hc, hex⟩)
              · exact absurd hc (by simp)
              · obtain ⟨h1, h2⟩ := orquestador.RespuestaMicro.respuesta.inj hc
                rw [← h1] at hex
                rw [hex] at h
                exact absurd h (by simp)
          · intro e he
            exact absurd he (by simp [orquestador.procesar_consulta, h])
      | false =>
          constructor
          · refine ⟨fun _ => Or.inr ⟨st, cuerpo, rfl, h⟩, fun _ => ?_⟩
            simp [orquestador.procesar_consulta, h]
          · intro e he
            have h502 : (Except.error 502 : Except Nat String) = .error e := by
              simpa [orquestador.procesar_consulta, h] using he
            exact (Except.error.inj h502).symm

theorem claim_C4_witness :
    (orquestador.procesar_consulta .excepcion "hola").salida = .error 502 :=
  (claim_C4 .excepcion "hola").1.mpr (Or.inl rfl)

/-- C10: on a 2xx downstream response, /consulta answers with the JSON
body's "respuesta" value, falling back to "Sin respuesta" when the key
is missing, and the question it forwarded downstream is the lowercased
text. -/
theorem claim_C10 (st : Nat) (cuerpo : List (String × String)) (q : String)
    (h : orquestador.es_exito st = true) :
    ((orquestador.procesar_consulta (.respuesta st cuerpo) q).salida =
        .ok (orquestador.jsonGet cuerpo "respuesta" "Sin respuesta"))
    ∧ (cuerpo.find? (fun kv => kv.1 == "respuesta") = none →
        (orquestador.procesar_consulta (.respuesta st cuerpo) q).salida =
          .ok "Sin respuesta")
    ∧ (orquestador.procesar_consulta (.respuesta st cuerpo) q).pregunta_enviada =
        lowerStr q := by
  refine ⟨?_, ?_, ?_⟩
  · simp [orquestador.procesar_consulta, h]
  · intro hn
    simp [orquestador.procesar_consulta, h, orquestador.jsonGet, hn]
  · simp [orquestador.procesar_consulta, h]

theorem claim_C10_witness :
    (orquestador.procesar_consulta (.respuesta 200 []) "Hola").salida =
      .ok "Sin respuesta"
    ∧ (orquestador.procesar_consulta (.respuesta 200 []) "Hola").pregunta_enviada =
      lowerStr "Hola" :=
  ⟨(claim_C10 200 [] "Hola" (by decide)).2.1 rfl,
   (claim_C10 200 [] "Hola" (by decide)).2.2⟩

/-- C2 counterexample: "localizar" triggers a non-default response in
micro_consultas, yet the orchestrator routes it to index 3 (micro_ia),
not index 0: the orchestrator's keyword lists do not agree with the
downstream matching. -/
theorem claim_C2_counterexample :
    micro_consultas.responder "localizar" ≠ micro_consultas.defecto
    ∧ orquestador.routeIdx (lowerStr "localizar") = 3 := by
  exact ⟨by decide, rfl⟩

/-- C2 (amended): the agreement between the orchestrator's routing and
the downstream matching holds keyword by keyword on the orchestrator's
own lists — every single-keyword question is routed to the intended
service, and the downstream service answers non-default for all of them
except "acceso" (consultas), "abrir cuenta", "cuenta nueva",
"documentación", "tiempo" (cuentas) and "autenticación", "doble factor"
(identidad) — but fails in the converse direction: the downstream
triggers "localizar", "entrada de dinero", "condiciones", "comision",
"apertura", "cambiar mi cuenta", "llamada" and "dos factores" produce
non-default downstream responses while the orchestrator routes them to
index 3 (micro_ia). -/
theorem claim_C2_amended :
    (∀ w ∈ orquestador.grupo_consultas, orquestador.routeIdx (lowerStr w) = 0)
    ∧ (∀ w ∈ orquestador.grupo_cuentas, orquestador.routeIdx (lowerStr w) = 1)
    ∧ (∀ w ∈ orquestador.grupo_identidad, orquestador.routeIdx (lowerStr w) = 2)
    ∧ (∀ w ∈ orquestador.grupo_consultas, w ≠ "acceso" →
        micro_consultas.responder w ≠ micro_consultas.defecto)
    ∧ (∀ w ∈ orquestador.grupo_cuentas,
        w ∉ ["abrir cuenta", "cuenta nueva", "documentación", "tiempo"] →
        micro_cuentas.responder w ≠ micro_cuentas.defecto)
    ∧ (∀ w ∈ orquestador.grupo_identidad,
        w ∉ ["autenticación", "doble factor"] →
        micro_identidad.responder w ≠ micro_identidad.defecto)
    ∧ (∀ w ∈ ["localizar", "entrada de dinero"],
        micro_consultas.responder w ≠ micro_consultas.defecto
        ∧ orquestador.routeIdx (lowerStr w) = 3)
    ∧ (∀ w ∈ ["condiciones", "comision", "apertura", "cambiar mi cuenta"],
        micro_cuentas.responder w ≠ micro_cuentas.defecto
        ∧ orquestador.routeIdx (lowerStr w) = 3)
    ∧ (∀ w ∈ ["llamada", "dos factores"],
        micro_identidad.responder w ≠ micro_identidad.defecto
        ∧ orquestador.routeIdx (lowerStr w) = 3) := by
  refine ⟨by decide, by decide, by decide, by decide, by decide, by decide,
    by decide, by decide, by decide⟩

theorem claim_C2_amended_witness :
    orquestador.routeIdx (lowerStr "saldo") = 0 :=
  claim_C2_amended.1 "saldo" (by decide)

theorem any_contiene_false_iff (ks : List String) (texto : String) :
    (ks.any (fun k => contiene texto k) = false ↔
      ∀ k ∈ ks, contiene texto k = false) := by
  simp [List.any_eq_false]

theorem tabla_primera (t : List (List String × String)) (d : String)
    (texto : String) (i : Nat) (k : String) (hi : i < t.length)
    (hk : k ∈ (filaDe t i).1) (hc : contiene texto k = true)
    (hprev : ∀ j, j < i → ∀ m ∈ (filaDe t j).1, contiene texto m = false) :
    (firstMatch texto t).getD d = (filaDe t i).2 := by
  have hfire : (filaDe t i).1.any (fun x => contiene texto x) = true :=
    List.any_eq_true.mpr ⟨k, hk, hc⟩
  have hprev' : ∀ j, j < i →
      (filaDe t j).1.any (fun x => contiene texto x) = false := by
    intro j hj
    exact (any_contiene_false_iff _ _).mpr (hprev j hj)
  rw [firstMatch_en texto t i hi hfire hprev']
  rfl

theorem tabla_defecto_iff (t : List (List String × String)) (d : String)
    (hd : d ∉ t.map Prod.snd) (texto : String) :
    ((firstMatch texto t).getD d = d ↔
      ∀ fila ∈ t, ∀ k ∈ fila.1, contiene texto k = false) := by
  cases h : firstMatch texto t with
  | none =>
      simp only [Option.getD_none]
      constructor
      · intro _ fila hf k hk
        have hrow := (firstMatch_none_iff texto t).mp h fila hf
        exact (any_contiene_false_iff _ _).mp hrow k hk
      · exact fun _ => trivial
  | some r =>
      simp only [Option.getD_some]
      constructor
      · intro hr
        rw [hr] at h
        exact absurd (firstMatch_mem texto t d h) hd
      · intro hall
        have hnone : firstMatch texto t = none :=
          (firstMatch_none_iff texto t).mpr
            (fun fila hf => (any_contiene_false_iff _ _).mpr (hall fila hf))
        rw [hnone] at h
        exact Option.noConfusion h

/-- C5 counterexample: micro_cuentas does not fit the claim's
"every service, every keyword" shape.  The question "convertir" contains
the branch-5 keyword "convertir" and no keyword of an earlier branch,
yet the service answers the default fallback instead of branch 5's
response, because branch 5 additionally requires "cuenta". -/
theorem claim_C5_counterexample :
    "convertir" ∈ micro_cuentas.claves
    ∧ contiene (micro_cuentas._normalize "convertir") "convertir" = true
    ∧ (∀ k ∈ ["IBAN", "cuenta", "tipo de cuenta", "tipos de cuenta", "requisito",
        "requisitos", "condicion", "condiciones", "comision", "comisiones"],
        contiene (micro_cuentas._normalize "convertir") k = false)
    ∧ micro_cuentas.responder "convertir" ≠
        "Podemos ayudarte a convertir tu cuenta actual en una cuenta nómina si cumples las condiciones." := by
  refine ⟨by decide, rfl, by decide, by decide⟩

/-- C5 (amended): for the three services whose branches are plain
keyword lists (consultas, ia, identidad), a question containing a
keyword of row `i` and no keyword of any earlier row gets row `i`'s
response; micro_cuentas follows the same discipline only at the level of
its compound branch conditions, e.g. its change/convert branch needs
"cambiar" or "convertir" together with "cuenta". -/
theorem claim_C5_amended :
    (∀ (q : String) (i : Nat) (k : String), i < tabla_consultas.length →
      k ∈ (filaDe tabla_consultas i).1 → contiene (lowerStr q) k = true →
      (∀ j, j < i → ∀ m ∈ (filaDe tabla_consultas j).1,
        contiene (lowerStr q) m = false) →
      micro_consultas.responder q = (filaDe tabla_consultas i).2)
    ∧ (∀ (q : String) (i : Nat) (k : String), i < tabla_ia.length →
      k ∈ (filaDe tabla_ia i).1 → contiene (lowerStr q) k = true →
      (∀ j, j < i → ∀ m ∈ (filaDe tabla_ia j).1,
        contiene (lowerStr q) m = false) →
      micro_ia.responder q = (filaDe tabla_ia i).2)
    ∧ (∀ (q : String) (i : Nat) (k : String), i < tabla_identidad.length →
      k ∈ (filaDe tabla_identidad i).1 → contiene (lowerStr q) k = true →
      (∀ j, j < i → ∀ m ∈ (filaDe tabla_identidad j).1,
        contiene (lowerStr q) m = false) →
      micro_identidad.responder q = (filaDe tabla_identidad i).2)
    ∧ (∀ q : String,
      (contiene (micro_cuentas._normalize q) "cambiar" = true ∨
        contiene (micro_cuentas._normalize q) "convertir" = true) →
      contiene (micro_cuentas._normalize q) "cuenta" = true →
      (∀ k ∈ ["tipo de cuenta", "tipos de cuenta", "requisito", "requisitos",
        "condicion", "condiciones", "comision", "comisiones"],
        contiene (micro_cuentas._normalize q) k = false) →
      micro_cuentas.responder q =
        "Podemos ayudarte a convertir tu cuenta actual en una cuenta nómina si cumples las condiciones.") := by
  refine ⟨?_, ?_, ?_, ?_⟩
  · intro q i k hi hk hc hprev
    rw [show micro_consultas.responder q =
      (firstMatch (lowerStr q) tabla_consultas).getD micro_consultas.defecto from
      consultas_es_tabla (lowerStr q)]
    exact tabla_primera _ _ _ i k hi hk hc hprev
  · intro q i k hi hk hc hprev
    rw [show micro_ia.responder q =
      (firstMatch (lowerStr q) tabla_ia).getD micro_ia.defecto from
      ia_es_tabla (lowerStr q)]
    exact tabla_primera _ _ _ i k hi hk hc hprev
  · intro q i k hi hk hc hprev
    rw [show micro_identidad.responder q =
      (firstMatch (lowerStr q) tabla_identidad).getD micro_identidad.defecto from
      identidad_es_tabla (lowerStr q)]
    exact tabla_primera _ _ _ i k hi hk hc hprev
  · intro q hcv hcuenta hnone
    have h1 := contiene_IBAN_norm q
    have e1 := hnone "tipo de cuenta" (by decide)
    have e2 := hnone "tipos de cuenta" (by decide)
    have e3 := hnone "requisito" (by decide)
    have e4 := hnone "requisitos" (by decide)
    have e5 := hnone "condicion" (by decide)
    have e6 := hnone "condiciones" (by decide)
    have e7 := hnone "comision" (by decide)
    have e8 := hnone "comisiones" (by decide)
    rcases hcv with h | h <;>
      simp [micro_cuentas.responder, micro_cuentas.respuestaDe,
        h1, e1, e2, e3, e4, e5, e6, e7, e8, hcuenta, h]

theorem claim_C5_amended_witness :
    micro_ia.responder "¿Qué interés tiene la hipoteca?" =
      "Actualmente el tipo de interés para hipotecas es del 3,2%." :=
  claim_C5_amended.2.1 "¿Qué interés tiene la hipoteca?" 0 "hipoteca"
    (by decide) (by decide) (by decide)
    (fun j hj => absurd hj (Nat.not_lt_zero j))

/-- C6 counterexample: the question "cambiar" contains the
micro_cuentas keyword "cambiar", yet the service still answers its
default fallback — so "no keyword contained" is not the only condition
under which the default is returned. -/
theorem claim_C6_counterexample :
    "cambiar" ∈ micro_cuentas.claves
    ∧ contiene (micro_cuentas._normalize "cambiar") "cambiar" = true
    ∧ micro_cuentas.responder "cambiar" = micro_cuentas.defecto := by
  refine ⟨by decide, rfl, rfl⟩

/-- C6 (amended): for consultas, ia and identidad the default fallback
is returned exactly when the (lowercased) question contains no keyword
of any branch; for micro_cuentas only the forward direction holds — if
the normalized question contains none of the literal keyword strings of
the branch conditions, the default is returned — while the converse
fails because of the compound (and the dead "IBAN") branches. -/
theorem claim_C6_amended :
    (∀ q : String, micro_consultas.responder q = micro_consultas.defecto ↔
      ∀ fila ∈ tabla_consultas, ∀ k ∈ fila.1, contiene (lowerStr q) k = false)
    ∧ (∀ q : String, micro_ia.responder q = micro_ia.defecto ↔
      ∀ fila ∈ tabla_ia, ∀ k ∈ fila.1, contiene (lowerStr q) k = false)
    ∧ (∀ q : String, micro_identidad.responder q = micro_identidad.defecto ↔
      ∀ fila ∈ tabla_identidad, ∀ k ∈ fila.1, contiene (lowerStr q) k = false)
    ∧ (∀ q : String,
      (∀ k ∈ micro_cuentas.claves, contiene (micro_cuentas._normalize q) k = false) →
      micro_cuentas.responder q = micro_cuentas.defecto) := by
  refine ⟨?_, ?_, ?_, ?_⟩
  · intro q
    rw [show micro_consultas.responder q =
      (firstMatch (lowerStr q) tabla_consultas).getD micro_consultas.defecto from
      consultas_es_tabla (lowerStr q)]
    exact tabla_defecto_iff _ _ (by decide) (lowerStr q)
  · intro q
    rw [show micro_ia.responder q =
      (firstMatch (lowerStr q) tabla_ia).getD micro_ia.defecto from
      ia_es_tabla (lowerStr q)]
    exact tabla_defecto_iff _ _ (by decide) (lowerStr q)
  · intro q
    rw [show micro_identidad.responder q =
      (firstMatch (lowerStr q) tabla_identidad).getD micro_identidad.defecto from
      identidad_es_tabla (lowerStr q)]
    exact tabla_defecto_iff _ _ (by decide) (lowerStr q)
  · intro q hnone
    have c1 := hnone "IBAN" (by decide)
    have c2 := hnone "cuenta" (by decide)
    have c3 := hnone "tipo de cuenta" (by decide)
    have c4 := hnone "tipos de cuenta" (by decide)
    have c5 := hnone "requisito" (by decide)
    have c6 := hnone "requisitos" (by decide)
    have c7 := hnone "condicion" (by decide)
    have c8 := hnone "condiciones" (by decide)
    have c9 := hnone "comision" (by decide)
    have c10 := hnone "comisiones" (by decide)
    have c11 := hnone "cambiar" (by decide)
    have c12 := hnone "convertir" (by decide)
    have c13 := hnone "plazo" (by decide)
    have c14 := hnone "apertura" (by decide)
    simp [micro_cuentas.responder, micro_cuentas.respuestaDe, micro_cuentas.defecto,
      c1, c2, c3, c4, c5, c6, c7, c8, c9, c10, c11, c12, c13, c14]

theorem claim_C6_amended_witness :
    micro_consultas.responder "buenos dias" = micro_consultas.defecto :=
  (claim_C6_amended.1 "buenos dias").mpr (by decide)

/-- C7: in each of the keyword-table services, when several branches
match, the response of the earliest matching branch is returned: if
branch `i` fires and no earlier branch fires, the answer is branch `i`'s
response, regardless of later branches. -/
theorem claim_C7 :
    (∀ (q : String) (i : Nat), i < tabla_consultas.length →
      (filaDe tabla_consultas i).1.any (fun k => contiene (lowerStr q) k) = true →
      (∀ j, j < i →
        (filaDe tabla_consultas j).1.any (fun k => contiene (lowerStr q) k) = false) →
      micro_consultas.responder q = (filaDe tabla_consultas i).2)
    ∧ (∀ (q : String) (i : Nat), i < tabla_ia.length →
      (filaDe tabla_ia i).1.any (fun k => contiene (lowerStr q) k) = true →
      (∀ j, j < i →
        (filaDe tabla_ia j).1.any (fun k => contiene (lowerStr q) k) = false) →
      micro_ia.responder q = (filaDe tabla_ia i).2)
    ∧ (∀ (q : String) (i : Nat), i < tabla_identidad.length →
      (filaDe tabla_identidad i).1.any (fun k => contiene (lowerStr q) k) = true →
      (∀ j, j < i →
        (filaDe tabla_identidad j).1.any (fun k => contiene (lowerStr q) k) = false) →
      micro_identidad.responder q = (filaDe tabla_identidad i).2) := by
  refine ⟨?_, ?_, ?_⟩
  · intro q i hi hfire hprev
    rw [show micro_consultas.responder q =
      (firstMatch (lowerStr q) tabla_consultas).getD micro_consultas.defecto from
      consultas_es_tabla (lowerStr q),
      firstMatch_en (lowerStr q) tabla_consultas i hi hfire hprev]
    rfl
  · intro q i hi hfire hprev
    rw [show micro_ia.responder q =
      (firstMatch (lowerStr q) tabla_ia).getD micro_ia.defecto from
      ia_es_tabla (lowerStr q),
      firstMatch_en (lowerStr q) tabla_ia i hi hfire hprev]
    rfl
  · intro q i hi hfire hprev
    rw [show micro_identidad.responder q =
      (firstMatch (lowerStr q) tabla_identidad).getD micro_identidad.defecto from
      identidad_es_tabla (lowerStr q),
      firstMatch_en (lowerStr q) tabla_identidad i hi hfire hprev]
    rfl

theorem claim_C7_witness :
    micro_consultas.responder "he hecho una compra y quiero mi saldo" =
      "Tu último movimiento fue una compra de 35€ en Amazon." :=
  claim_C7.1 "he hecho una compra y quiero mi saldo" 0 (by decide) (by decide)
    (fun j hj => absurd hj (Nat.not_lt_zero j))

/-- C8: all keyword matching happens on the lowercased (for cuentas,
normalized) text, so every handler and the orchestrator's whole
request processing give the same result on `s` and on `s.lower()`. -/
theorem claim_C8 (s : String) :
    micro_consultas.responder s = micro_consultas.responder (lowerStr s)
    ∧ micro_cuentas.responder s = micro_cuentas.responder (lowerStr s)
    ∧ micro_ia.responder s = micro_ia.responder (lowerStr s)
    ∧ micro_identidad.responder s = micro_identidad.responder (lowerStr s)
    ∧ ∀ d, orquestador.procesar_consulta d s =
        orquestador.procesar_consulta d (lowerStr s) := by
  refine ⟨?_, ?_, ?_, ?_, ?_⟩
  · exact (congrArg micro_consultas.respuestaDe (lowerStr_idem s)).symm
  · exact (congrArg micro_cuentas.respuestaDe (normalize_lowerStr s)).symm
  · exact (congrArg micro_ia.respuestaDe (lowerStr_idem s)).symm
  · exact (congrArg micro_identidad.respuestaDe (lowerStr_idem s)).symm
  · intro d
    cases d with
    | excepcion => simp only [orquestador.procesar_consulta, lowerStr_idem]
    | respuesta st cuerpo => simp only [orquestador.procesar_consulta, lowerStr_idem]
